import Mathlib

/-!
# Starteryou front-end panels: HeroAbout, BestJob, BestJob2, BestJob3

A shallow embedding of the state handling of
`frontend/src/components/About/HeroAbout.jsx`,
`frontend/src/components/Landing/BestJob.jsx`, `BestJob2.jsx`, `BestJob3.jsx`
and of the hook `frontend/src/hooks/useFileOperations.js`.

React state (`useState`) is an explicit record; every handler is a function
from the state before to the state after.  A network request is represented by
its outcome, chosen by the environment.  An `async` handler is split at its
`await`: the part that runs before the request is issued and the part that runs
when the request settles.
-/

namespace Starteryou

/-! ## JavaScript strings -/

/-- The code points that `String.prototype.trim` strips: ECMAScript WhiteSpace
(TAB, VT, FF, SP, NBSP, ZWNBSP and the Unicode space separators) and
LineTerminator (LF, CR, LS, PS). -/
def isJsWhiteSpace (c : Char) : Bool :=
  let n := c.toNat
  n == 0x09 || n == 0x0A || n == 0x0B || n == 0x0C || n == 0x0D || n == 0x20 ||
  n == 0xA0 || n == 0x1680 || (0x2000 ≤ n && n ≤ 0x200A) || n == 0x2028 ||
  n == 0x2029 || n == 0x202F || n == 0x205F || n == 0x3000 || n == 0xFEFF

/-- Trimming on a list of characters: drop the leading white space, then the
trailing white space. -/
def trimChars (cs : List Char) : List Char :=
  ((cs.dropWhile isJsWhiteSpace).reverse.dropWhile isJsWhiteSpace).reverse

/-- The JavaScript method `s.trim()`. -/
def jsTrim (s : String) : String :=
  String.mk (trimChars s.data)

/-- The JavaScript method `xs.join(sep)` on an array of strings: the elements
in order, with `sep` between two consecutive ones. -/
def jsJoin (sep : String) : List String → String
  | [] => ""
  | [a] => a
  | a :: b :: rest => a ++ sep ++ jsJoin sep (b :: rest)

/-- The JavaScript expression `v || d` where `v` is a string or `undefined`
(`none`): the empty string and `undefined` are falsy. -/
def jsOrString (v : Option String) (d : String) : String :=
  match v with
  | some s => if s = "" then d else s
  | none => d

/-- What the words "with leading and trailing white space removed" mean:
`t` is `s` without a prefix and a suffix made of white space only, and `t`
neither starts nor ends with white space. -/
def IsTrimOf (s t : String) : Prop :=
  ∃ pre suf : List Char,
    s.data = pre ++ t.data ++ suf ∧
    (∀ c ∈ pre, isJsWhiteSpace c = true) ∧
    (∀ c ∈ suf, isJsWhiteSpace c = true) ∧
    (∀ c, t.data.head? = some c → isJsWhiteSpace c = false) ∧
    (∀ c, t.data.getLast? = some c → isJsWhiteSpace c = false)

/-! ## HeroAbout: data -/

/-- The value held by the `paragraph` state.  It is declared a string, and
`saveContent` also accepts an array (`Array.isArray(paragraph)`). -/
inductive ParaBuf where
  | text (p : String)
  | list (ps : List String)
  deriving DecidableEq, Repr

/-- The four `useState` cells of `HeroAbout`. -/
structure HeroState where
  title : String
  paragraph : ParaBuf
  isEditing : Bool
  error : String
  deriving DecidableEq, Repr

/-- The initial values passed to `useState`. -/
def HeroState.initial : HeroState :=
  { title := "xxxxxxxxxxxxxxxxxxx"
    paragraph := .text "xxxxxxxxxxxxxxxxxxxxxxxxxxxxxxxx"
    isEditing := false
    error := "" }

/-- The `data` of a GET response that carries a record, typed as the backend
interface is (`content: string`, `paragraphs: string[]`) with the malformed
cases: `content` is a string or missing (`none`); `paragraphs` is an array of
strings, or a value for which `Array.isArray` is false, either missing
(`none`) or a string. -/
structure TextRecord where
  content : Option String
  paragraphs : Option ParaBuf
  deriving DecidableEq, Repr

/-- How `axios.get` settles: it rejects, or it resolves with a response whose
`data` is falsy (`none`, no record) or a record. -/
inductive GetOutcome where
  | rejected
  | resolved (data : Option TextRecord)
  deriving DecidableEq, Repr

/-- How `axios.put` settles. -/
inductive PutOutcome where
  | ack
  | rejected
  deriving DecidableEq, Repr

/-- The body of the PUT request. -/
structure PutBody where
  component : String
  content : String
  paragraphs : List String
  deriving DecidableEq, Repr

/-! ## HeroAbout: handlers -/

/-- The paragraph text `fetchData` stores: `Array.isArray(paragraphs) ?
paragraphs.join("\n") : "Your description paragraph here."`. -/
def fetchedParagraph (paragraphs : Option ParaBuf) : String :=
  match paragraphs with
  | some (.list ps) => jsJoin "\n" ps
  | _ => "Your description paragraph here."

/-- The body of `fetchData` after `await axios.get(...)`. -/
def fetchData (s : HeroState) : GetOutcome → HeroState
  | .resolved (some d) =>
      { s with
        title := jsOrString d.content "Your Hero Title Here"
        paragraph := .text (fetchedParagraph d.paragraphs) }
  | .resolved none => s
  | .rejected => { s with error := "Error fetching content. Please try again later." }

/-- `handleEdit = () => isAdmin && setIsEditing(true)`. -/
def handleEdit (isAdmin : Bool) (s : HeroState) : HeroState :=
  if isAdmin then { s with isEditing := true } else s

/-- `handleChangeTitle = (e) => setTitle(e.target.value)`. -/
def handleChangeTitle (value : String) (s : HeroState) : HeroState :=
  { s with title := value }

/-- `handleChangeParagraph = (e) => setParagraph(e.target.value)`. -/
def handleChangeParagraph (value : String) (s : HeroState) : HeroState :=
  { s with paragraph := .text value }

/-- `Array.isArray(paragraph) ? paragraph : [paragraph.trim()]`. -/
def normalizedParagraphs : ParaBuf → List String
  | .list ps => ps
  | .text p => [jsTrim p]

/-- The first half of `saveContent`: the body handed to `axios.put`. -/
def saveContentBody (s : HeroState) : PutBody :=
  { component := "HeroAbout"
    content := jsTrim s.title
    paragraphs := normalizedParagraphs s.paragraph }

/-- The second half of `saveContent`: what runs when the PUT settles. -/
def saveContentSettle (s : HeroState) : PutOutcome → HeroState
  | .ack => { s with error := "", isEditing := false }
  | .rejected => { s with error := "Error saving content. Please try again later." }

/-- The handler `saveContent` run with no other handler in between: the request
it transmits and the state once the request has settled. -/
def saveContent (s : HeroState) (o : PutOutcome) : PutBody × HeroState :=
  (saveContentBody s, saveContentSettle s o)

/-! ## HeroAbout: the panel with its requests in flight

`saveContent` and `fetchData` are `async`: between the moment a request is
issued and the moment it settles the panel keeps handling user events.  The
controls that exist are those of the render function: the two text areas and
the Save button when `isEditing`, the pencil otherwise (for an admin). -/

/-- The title and paragraph a view shows. -/
abbrev Shown := String × ParaBuf

/-- The title and paragraph held by a state. -/
def HeroState.shown (s : HeroState) : Shown := (s.title, s.paragraph)

/-- The panel, the requests it has in flight, and a log of what the backend
delivered and acknowledged. -/
structure HeroPanel where
  state : HeroState
  /-- The GET issued on mount has not settled yet. -/
  getPending : Bool
  /-- The buffers of the PUT requests issued and not settled, oldest first. -/
  inFlight : List Shown
  /-- Log: the values stored by a resolved GET. -/
  fetched : List Shown
  /-- Log: the buffers whose PUT was acknowledged. -/
  saved : List Shown
  deriving DecidableEq, Repr

/-- The panel right after mount: initial state, GET issued. -/
def HeroPanel.initial : HeroPanel :=
  { state := HeroState.initial, getPending := true, inFlight := [], fetched := [], saved := [] }

/-- What can happen to the panel. -/
inductive HeroEvent where
  /-- A click on the pencil. -/
  | clickEdit
  /-- Typing in the title text area. -/
  | changeTitle (value : String)
  /-- Typing in the paragraph text area. -/
  | changeParagraph (value : String)
  /-- A click on Save: `saveContent` runs up to its `await`. -/
  | clickSave
  /-- The `k`-th PUT in flight settles: `saveContent` resumes. -/
  | putSettled (k : Nat) (o : PutOutcome)
  /-- The GET settles: `fetchData` resumes. -/
  | getSettled (o : GetOutcome)
  deriving DecidableEq, Repr

/-- One event. An event whose control is not rendered, or whose request is not
in flight, cannot happen and leaves the panel as it is. -/
def HeroPanel.step (isAdmin : Bool) (p : HeroPanel) : HeroEvent → HeroPanel
  | .clickEdit =>
      if !p.state.isEditing && isAdmin then { p with state := handleEdit isAdmin p.state } else p
  | .changeTitle v =>
      if p.state.isEditing then { p with state := handleChangeTitle v p.state } else p
  | .changeParagraph v =>
      if p.state.isEditing then { p with state := handleChangeParagraph v p.state } else p
  | .clickSave =>
      if p.state.isEditing then { p with inFlight := p.inFlight ++ [p.state.shown] } else p
  | .putSettled k o =>
      match p.inFlight[k]? with
      | none => p
      | some b =>
          { p with
            state := saveContentSettle p.state o
            inFlight := p.inFlight.eraseIdx k
            saved := if o = .ack then b :: p.saved else p.saved }
  | .getSettled o =>
      if p.getPending then
        { p with
          state := fetchData p.state o
          getPending := false
          fetched :=
            match o with
            | .resolved (some _) => (fetchData p.state o).shown :: p.fetched
            | _ => p.fetched }
      else p

/-- A sequence of events, from a given panel. -/
def HeroPanel.run (isAdmin : Bool) (p : HeroPanel) : List HeroEvent → HeroPanel
  | [] => p
  | e :: es => HeroPanel.run isAdmin (p.step isAdmin e) es

/-- The values `v` are the initial ones, fetched ones, or those of a buffer
whose save was acknowledged. -/
def HeroPanel.Committed (p : HeroPanel) (v : Shown) : Prop :=
  v = HeroState.initial.shown ∨ v ∈ p.fetched ∨ v ∈ p.saved

instance (p : HeroPanel) (v : Shown) : Decidable (p.Committed v) :=
  inferInstanceAs (Decidable (v = HeroState.initial.shown ∨ v ∈ p.fetched ∨ v ∈ p.saved))

/-- The invariant behind the read-only view: outside edit mode the values shown
are committed, and every buffer in flight is either the one shown or the
values shown are committed. -/
def HeroPanel.Inv (p : HeroPanel) : Prop :=
  (p.state.isEditing = false → p.Committed p.state.shown) ∧
  ∀ b ∈ p.inFlight, p.state.shown = b ∨ p.Committed p.state.shown

/-- No text area is typed in while a PUT is in flight. -/
def HeroPanel.editsOnlyWhenIdle (isAdmin : Bool) (p : HeroPanel) : List HeroEvent → Bool
  | [] => true
  | e :: es =>
      (match e with
        | .changeTitle _ => p.inFlight.isEmpty
        | .changeParagraph _ => p.inFlight.isEmpty
        | _ => true) &&
      HeroPanel.editsOnlyWhenIdle isAdmin (p.step isAdmin e) es

/-! ## BestJob -/

/-- A `Blob` (a `File` is one): what `URL.createObjectURL` takes. -/
structure Blob where
  bytes : List Nat
  mimeType : String
  deriving DecidableEq, Repr

/-- The four `useState` cells of `BestJob`. -/
structure BestJobState where
  image1 : String
  image2 : String
  error : Option String
  hasFetchedOnce : Bool
  deriving DecidableEq, Repr

/-- The initial values passed to `useState`. -/
def BestJobState.initial : BestJobState :=
  { image1 := "/LandingPage/Rectangle.png"
    image2 := "/LandingPage/Heroimg2.jpg"
    error := none
    hasFetchedOnce := false }

/-- How the PUT of `handleFileChange` ends: `fetch` rejects, the response is
not `ok`, `response.json()` rejects, or the response is `ok` and parses. -/
inductive UploadOutcome where
  | rejected
  | notOk
  | badJson
  | ok
  deriving DecidableEq, Repr

/-- `BestJob.handleFileChange(event, imageType)`, with `file` the value of
`event.target.files[0]` (`none` when no file was chosen, on which
`URL.createObjectURL` throws inside the `try`). The array `titles` and the
browser function `URL.createObjectURL` are parameters. -/
def BestJob.handleFileChange (createObjectURL : Blob → String) (titles : List String)
    (s : BestJobState) (file : Option Blob) (imageType : String) (o : UploadOutcome) :
    BestJobState :=
  match o, file with
  | .ok, some f =>
      if titles[0]? = some imageType then
        { s with image1 := createObjectURL f, error := none }
      else
        { s with image2 := createObjectURL f, error := none }
  | _, _ => { s with error := some ("Error updating image for " ++ imageType) }

/-- How a download (`fetch`, then `response.blob()`) ends: `fetch` rejects, the
response is not `ok`, `response.blob()` rejects, or a blob arrives. -/
inductive DownloadOutcome where
  | rejected
  | notOk
  | noBlob
  | ok (blob : Blob)
  deriving DecidableEq, Repr

/-- `const titles = ["starteryou-v2", "starteryou-v2"]` of `BestJob`. -/
def BestJob.titles : List String := ["starteryou-v2", "starteryou-v2"]

/-- `BestJob.fetchImages()`: the arguments of `fileDownload` for the requests
it issues, in order, and the state it leaves. `o1` and `o2` are the outcomes of
the first and of the second download; the second one is only issued once the
first preview is stored. -/
def BestJob.fetchImages (createObjectURL : Blob → String) (titles : List String)
    (s : BestJobState) (o1 o2 : DownloadOutcome) : List (Option String) × BestJobState :=
  if s.hasFetchedOnce then ([], s)
  else
    match o1 with
    | .ok b1 =>
        match o2 with
        | .ok b2 =>
            ([titles[0]?, titles[1]?],
              { image1 := createObjectURL b1, image2 := createObjectURL b2, error := none,
                hasFetchedOnce := true })
        | _ =>
            ([titles[0]?, titles[1]?],
              { s with
                image1 := createObjectURL b1
                error := some "Failed to load images"
                hasFetchedOnce := true })
    | _ => ([titles[0]?], { s with error := some "Failed to load images", hasFetchedOnce := true })

/-- The operations of `BestJob` that write its state. -/
inductive BestJob.Op where
  | fetchImages (o1 o2 : DownloadOutcome)
  | handleFileChange (file : Option Blob) (imageType : String) (o : UploadOutcome)
  deriving DecidableEq, Repr

/-- One operation of `BestJob`. -/
def BestJob.apply (createObjectURL : Blob → String) (titles : List String) (s : BestJobState) :
    BestJob.Op → BestJobState
  | .fetchImages o1 o2 => (BestJob.fetchImages createObjectURL titles s o1 o2).2
  | .handleFileChange file imageType o =>
      BestJob.handleFileChange createObjectURL titles s file imageType o

/-- A sequence of operations of `BestJob`. -/
def BestJob.run (createObjectURL : Blob → String) (titles : List String) (s : BestJobState) :
    List BestJob.Op → BestJobState
  | [] => s
  | op :: ops => BestJob.run createObjectURL titles (BestJob.apply createObjectURL titles s op) ops

/-- The two file inputs `BestJob` renders for an admin. -/
inductive BestJob.Slot where
  | first
  | second
  deriving DecidableEq, Repr

/-- The identifier a rendered control passes to `handleFileChange`:
`titles[0]` for the first, `titles[1]` for the second (both indices exist). -/
def BestJob.Slot.imageType : BestJob.Slot → String
  | .first => (BestJob.titles[0]?).getD "undefined"
  | .second => (BestJob.titles[1]?).getD "undefined"

/-- A change of a rendered file input:
`(e) => handleFileChange(e, titles[0])` or `(e) => handleFileChange(e, titles[1])`. -/
def BestJob.onFileChange (createObjectURL : Blob → String) (s : BestJobState)
    (slot : BestJob.Slot) (file : Option Blob) (o : UploadOutcome) : BestJobState :=
  BestJob.handleFileChange createObjectURL BestJob.titles s file slot.imageType o

/-- A sequence of changes of the rendered file inputs. -/
def BestJob.onFileChanges (createObjectURL : Blob → String) (s : BestJobState) :
    List (BestJob.Slot × Option Blob × UploadOutcome) → BestJobState
  | [] => s
  | (slot, file, o) :: rest =>
      BestJob.onFileChanges createObjectURL (BestJob.onFileChange createObjectURL s slot file o) rest

/-! ## BestJob3 -/

/-- The three `useState` cells of `BestJob3`. -/
structure BestJob3State where
  uploadedFile : Option String
  error : Option String
  hasFetchedOnce : Bool
  deriving DecidableEq, Repr

/-- The initial values passed to `useState`. -/
def BestJob3State.initial : BestJob3State :=
  { uploadedFile := none, error := none, hasFetchedOnce := false }

/-- `const title = "starteryou-v2"` of `BestJob3`. -/
def BestJob3.title : String := "starteryou-v2"

/-- The JSON body of an upload response (`UploadResponse`: a message and,
optionally, a url). -/
structure UploadResponse where
  message : String
  url : Option String
  deriving DecidableEq, Repr

/-- How the PUT of a file ends, with the parsed body when there is one:
`fetch` rejects, the response is not `ok`, `response.json()` rejects, or the
response is `ok` and its body parses to `data`. -/
inductive PutFileOutcome where
  | rejected
  | notOk
  | badJson
  | ok (data : UploadResponse)
  deriving DecidableEq, Repr

/-- `BestJob3.fetchUploadedFile()`: the titles it requests and the state it
leaves. -/
def BestJob3.fetchUploadedFile (createObjectURL : Blob → String) (s : BestJob3State)
    (o : DownloadOutcome) : List String × BestJob3State :=
  if s.hasFetchedOnce then ([], s)
  else
    match o with
    | .ok b =>
        ([BestJob3.title],
          { uploadedFile := some (createObjectURL b), error := none, hasFetchedOnce := true })
    | _ => ([BestJob3.title], { s with error := some "Failed to load image", hasFetchedOnce := true })

/-- `BestJob3.handleFileChange(event)`, with `file` the value of
`event.target.files[0]` (`none` when no file was chosen, on which
`URL.createObjectURL` throws inside the `try`). -/
def BestJob3.handleFileChange (createObjectURL : Blob → String) (s : BestJob3State)
    (file : Option Blob) (o : PutFileOutcome) : BestJob3State :=
  match o, file with
  | .ok _, some f => { s with uploadedFile := some (createObjectURL f), error := none }
  | _, _ => { s with error := some "Error updating image" }

/-- The operations of `BestJob3` that write its state. -/
inductive BestJob3.Op where
  | fetchUploadedFile (o : DownloadOutcome)
  | handleFileChange (file : Option Blob) (o : PutFileOutcome)
  deriving DecidableEq, Repr

/-- One operation of `BestJob3`. -/
def BestJob3.apply (createObjectURL : Blob → String) (s : BestJob3State) :
    BestJob3.Op → BestJob3State
  | .fetchUploadedFile o => (BestJob3.fetchUploadedFile createObjectURL s o).2
  | .handleFileChange file o => BestJob3.handleFileChange createObjectURL s file o

/-- A sequence of operations of `BestJob3`. -/
def BestJob3.run (createObjectURL : Blob → String) (s : BestJob3State) :
    List BestJob3.Op → BestJob3State
  | [] => s
  | op :: ops => BestJob3.run createObjectURL (BestJob3.apply createObjectURL s op) ops

/-! ## The hook useFileOperations, and BestJob2

Both keep one `useState` cell, `uploadedFile`. A handler is a `try` whose
`catch` writes to the console; its result is `Except.ok` with the state and the
console lines when the promise of the `async` function fulfils, and
`Except.error` when an exception leaves the function. -/

/-- The state of the hook (and of `BestJob2`): `uploadedFile`, a URL or
`null`. -/
structure FileOpsState where
  uploadedFile : Option String
  deriving DecidableEq, Repr

/-- The initial value passed to `useState`: `null`. -/
def FileOpsState.initial : FileOpsState :=
  { uploadedFile := none }

/-- The string held by the property `name` of the object the hook returns,
`{uploadedFile, fetchUploadedFile, handleFileChange}`: `none` when the property
is absent, `null` or a function. -/
def FileOpsState.stringProp (s : FileOpsState) (name : String) : Option String :=
  if name = "uploadedFile" then s.uploadedFile else none

/-- The `try` block of a download: the blob, or the exception thrown. -/
def downloadTry : DownloadOutcome → Except String Blob
  | .rejected => .error "fetch rejected"
  | .notOk => .error "Network response was not ok"
  | .noBlob => .error "blob rejected"
  | .ok b => .ok b

/-- The `try` block of an upload: the lines it writes with `console.log`, and
the preview URL to store or the exception thrown. The success line is written
before `URL.createObjectURL(file)` is evaluated. -/
def uploadTry (createObjectURL : Blob → String) (file : Option Blob) :
    PutFileOutcome → List String × Except String String
  | .rejected => ([], .error "fetch rejected")
  | .notOk => ([], .error "Network response was not ok")
  | .badJson => ([], .error "json rejected")
  | .ok _ =>
      match file with
      | some f => (["Image updated successfully:"], .ok (createObjectURL f))
      | none => (["Image updated successfully:"], .error "createObjectURL: not a Blob")

/-- `fetchUploadedFile` of the hook `useFileOperations(title)`. -/
def useFileOperations.fetchUploadedFile (createObjectURL : Blob → String) (s : FileOpsState)
    (o : DownloadOutcome) : Except String (FileOpsState × List String) :=
  match downloadTry o with
  | .ok blob => .ok ({ uploadedFile := some (createObjectURL blob) }, [])
  | .error _ => .ok (s, ["Error fetching uploaded file:"])

/-- `handleFileChange` of the hook `useFileOperations(title)`. -/
def useFileOperations.handleFileChange (createObjectURL : Blob → String) (s : FileOpsState)
    (file : Option Blob) (o : PutFileOutcome) : Except String (FileOpsState × List String) :=
  match uploadTry createObjectURL file o with
  | (lines, .ok url) => .ok ({ uploadedFile := some url }, lines)
  | (lines, .error _) => .ok (s, lines ++ ["Error updating image:"])

/-- `fetchUploadedFile` of `BestJob2`. -/
def BestJob2.fetchUploadedFile (createObjectURL : Blob → String) (s : FileOpsState)
    (o : DownloadOutcome) : Except String (FileOpsState × List String) :=
  match downloadTry o with
  | .ok blob => .ok ({ uploadedFile := some (createObjectURL blob) }, [])
  | .error _ => .ok (s, ["Error fetching uploaded file:"])

/-- `handleFileChange` of `BestJob2`. -/
def BestJob2.handleFileChange (createObjectURL : Blob → String) (s : FileOpsState)
    (file : Option Blob) (o : PutFileOutcome) : Except String (FileOpsState × List String) :=
  match uploadTry createObjectURL file o with
  | (lines, .ok url) => .ok ({ uploadedFile := some url }, lines)
  | (lines, .error _) => .ok (s, lines ++ ["Error updating image:"])

/-! ## Lemmas on trimming and joining -/

theorem dropWhile_ws_splits (cs : List Char) :
    cs.dropWhile isJsWhiteSpace = trimChars cs ++
      ((cs.dropWhile isJsWhiteSpace).reverse.takeWhile isJsWhiteSpace).reverse := by
  have h := congrArg List.reverse
    (List.takeWhile_append_dropWhile isJsWhiteSpace (cs.dropWhile isJsWhiteSpace).reverse).symm
  rw [List.reverse_reverse, List.reverse_append] at h
  exact h

theorem trimChars_splits (cs : List Char) :
    cs = cs.takeWhile isJsWhiteSpace ++ trimChars cs ++
      ((cs.dropWhile isJsWhiteSpace).reverse.takeWhile isJsWhiteSpace).reverse := by
  rw [List.append_assoc, ← dropWhile_ws_splits]
  exact (List.takeWhile_append_dropWhile isJsWhiteSpace cs).symm

theorem head?_dropWhile_ws (cs : List Char) (c : Char)
    (h : (cs.dropWhile isJsWhiteSpace).head? = some c) : isJsWhiteSpace c = false := by
  have hd := List.head?_dropWhile_not isJsWhiteSpace cs
  rw [h] at hd
  exact hd

theorem trimChars_head (cs : List Char) (c : Char)
    (h : (trimChars cs).head? = some c) : isJsWhiteSpace c = false := by
  apply head?_dropWhile_ws cs c
  rw [dropWhile_ws_splits]
  cases ht : trimChars cs with
  | nil => rw [ht] at h; simp at h
  | cons a t => rw [ht] at h; simpa using h

theorem trimChars_getLast (cs : List Char) (c : Char)
    (h : (trimChars cs).getLast? = some c) : isJsWhiteSpace c = false := by
  unfold trimChars at h
  rw [List.getLast?_reverse] at h
  exact head?_dropWhile_ws _ c h

/-- The model of `trim` does what the words say. -/
theorem jsTrim_isTrimOf (s : String) : IsTrimOf s (jsTrim s) := by
  refine ⟨s.data.takeWhile isJsWhiteSpace,
    ((s.data.dropWhile isJsWhiteSpace).reverse.takeWhile isJsWhiteSpace).reverse,
    trimChars_splits s.data, ?_, ?_, ?_, ?_⟩
  · intro c hc
    exact List.mem_takeWhile_imp hc
  · intro c hc
    exact List.mem_takeWhile_imp (List.mem_reverse.mp hc)
  · intro c hc
    exact trimChars_head s.data c hc
  · intro c hc
    exact trimChars_getLast s.data c hc

/-- A join with newlines is empty only for the empty list and for the list
holding one empty string. -/
theorem jsJoin_newline_eq_empty (ps : List String) :
    jsJoin "\n" ps = "" ↔ ps = [] ∨ ps = [""] := by
  match ps with
  | [] => simp [jsJoin]
  | [a] => simp [jsJoin]
  | a :: b :: rest =>
      simp only [jsJoin]
      constructor
      · intro h
        have hl := congrArg String.length h
        simp only [String.length_append] at hl
        have h1 : "\n".length = 1 := by decide
        have h0 : "".length = 0 := by decide
        omega
      · intro h
        simp at h

theorem map_jsTrim_eq_self (ps : List String) :
    ps.map jsTrim = ps ↔ ∀ p ∈ ps, jsTrim p = p := by
  induction ps with
  | nil => simp
  | cons a t ih => simp [ih]

/-! ## HeroAbout: saving and fetching -/

/-- C1: for a title string and a paragraph buffer that is a single string, the
PUT body of `saveContent` has `component` "HeroAbout", `content` the trimmed
title, and `paragraphs` a list of exactly one element, the trimmed buffer;
"trimmed" is both the result of `trim` and the text without its leading and
trailing white space. -/
theorem saveContent_body_of_text (title p : String) (isEditing : Bool) (error : String)
    (o : PutOutcome) :
    (saveContent ⟨title, .text p, isEditing, error⟩ o).1.component = "HeroAbout" ∧
    (saveContent ⟨title, .text p, isEditing, error⟩ o).1.content = jsTrim title ∧
    (saveContent ⟨title, .text p, isEditing, error⟩ o).1.paragraphs = [jsTrim p] ∧
    (saveContent ⟨title, .text p, isEditing, error⟩ o).1.paragraphs.length = 1 ∧
    IsTrimOf title (saveContent ⟨title, .text p, isEditing, error⟩ o).1.content ∧
    (∀ e ∈ (saveContent ⟨title, .text p, isEditing, error⟩ o).1.paragraphs, IsTrimOf p e) := by
  refine ⟨rfl, rfl, rfl, rfl, jsTrim_isTrimOf title, ?_⟩
  intro e he
  have : e = jsTrim p := by
    simpa [saveContent, saveContentBody, normalizedParagraphs] using he
  rw [this]
  exact jsTrim_isTrimOf p

/-- C2, as stated, fails: the one-element list buffer `[" a "]` is transmitted
as `[" a "]`, not as its trimmed form `["a"]`. -/
theorem saveContent_list_not_trimmed :
    (saveContent ⟨"World", .list [" a "], true, ""⟩ .ack).1.paragraphs = [" a "] ∧
    [" a "].map jsTrim = ["a"] ∧
    (saveContent ⟨"World", .list [" a "], true, ""⟩ .ack).1.paragraphs ≠ [" a "].map jsTrim := by
  decide

/-- C2, amended: for a paragraph buffer that is already a list, the
`paragraphs` field of the PUT body is the buffer itself: same length, the i-th
element is the i-th buffer element unchanged; it is the list of the trimmed
elements exactly when every element is already trimmed. -/
theorem saveContent_body_of_list (title : String) (ps : List String) (isEditing : Bool)
    (error : String) (o : PutOutcome) :
    (saveContent ⟨title, .list ps, isEditing, error⟩ o).1.paragraphs = ps ∧
    (saveContent ⟨title, .list ps, isEditing, error⟩ o).1.paragraphs.length = ps.length ∧
    (∀ i : Nat, (saveContent ⟨title, .list ps, isEditing, error⟩ o).1.paragraphs[i]? = ps[i]?) ∧
    ((saveContent ⟨title, .list ps, isEditing, error⟩ o).1.paragraphs = ps.map jsTrim ↔
      ∀ p ∈ ps, jsTrim p = p) := by
  refine ⟨rfl, rfl, fun _ => rfl, ?_⟩
  show ps = ps.map jsTrim ↔ _
  rw [eq_comm]
  exact map_jsTrim_eq_self ps

/-- C3: when the GET request rejects, `fetchData` keeps `title`, `paragraph` and
`isEditing` and sets `error` to a non-empty string. -/
theorem fetchData_rejected (s : HeroState) :
    (fetchData s .rejected).title = s.title ∧
    (fetchData s .rejected).paragraph = s.paragraph ∧
    (fetchData s .rejected).isEditing = s.isEditing ∧
    (fetchData s .rejected).error = "Error fetching content. Please try again later." ∧
    (fetchData s .rejected).error ≠ "" := by
  refine ⟨rfl, rfl, rfl, rfl, ?_⟩
  show "Error fetching content. Please try again later." ≠ ""
  decide

/-- C4: `handleEdit` without the admin capability leaves the whole state
unchanged; with it, `isEditing` becomes true and no other field changes. So a
state that was not editing is editing after `handleEdit` only when `isAdmin`
is true. -/
theorem handleEdit_guarded (s : HeroState) :
    handleEdit false s = s ∧
    (handleEdit true s).isEditing = true ∧
    (handleEdit true s).title = s.title ∧
    (handleEdit true s).paragraph = s.paragraph ∧
    (handleEdit true s).error = s.error ∧
    (∀ isAdmin : Bool, (handleEdit isAdmin s).isEditing = (s.isEditing || isAdmin)) ∧
    (∀ isAdmin : Bool, s.isEditing = false → (handleEdit isAdmin s).isEditing = true →
      isAdmin = true) := by
  refine ⟨rfl, rfl, rfl, rfl, rfl, ?_, ?_⟩
  · intro isAdmin
    cases isAdmin <;> simp [handleEdit]
  · intro isAdmin h0 h1
    cases isAdmin
    · simp [handleEdit, h0] at h1
    · rfl

/-- C5: in edit mode, when the PUT of `saveContent` is acknowledged the state
has `isEditing = false` and `error = ""`, whatever the error was, and `title`
and `paragraph` are those of the edit buffer. -/
theorem saveContent_ack (s : HeroState) (_hedit : s.isEditing = true) :
    (saveContent s .ack).2.isEditing = false ∧
    (saveContent s .ack).2.error = "" ∧
    (saveContent s .ack).2.title = s.title ∧
    (saveContent s .ack).2.paragraph = s.paragraph :=
  ⟨rfl, rfl, rfl, rfl⟩

theorem saveContent_ack_witness :
    (saveContent ⟨"World", .text "Line1\nLine2", true, "old error"⟩ .ack).2.isEditing = false ∧
    (saveContent ⟨"World", .text "Line1\nLine2", true, "old error"⟩ .ack).2.error = "" ∧
    (saveContent ⟨"World", .text "Line1\nLine2", true, "old error"⟩ .ack).2.title = "World" ∧
    (saveContent ⟨"World", .text "Line1\nLine2", true, "old error"⟩ .ack).2.paragraph =
      .text "Line1\nLine2" :=
  saveContent_ack ⟨"World", .text "Line1\nLine2", true, "old error"⟩ rfl

/-- C6: in edit mode, when the PUT of `saveContent` fails the state still has
`isEditing = true`, the same `title` and `paragraph` buffer, and a non-empty
`error`. -/
theorem saveContent_rejected (s : HeroState) (h : s.isEditing = true) :
    (saveContent s .rejected).2.isEditing = true ∧
    (saveContent s .rejected).2.title = s.title ∧
    (saveContent s .rejected).2.paragraph = s.paragraph ∧
    (saveContent s .rejected).2.error = "Error saving content. Please try again later." ∧
    (saveContent s .rejected).2.error ≠ "" := by
  refine ⟨h, rfl, rfl, rfl, ?_⟩
  show "Error saving content. Please try again later." ≠ ""
  decide

theorem saveContent_rejected_witness :
    (saveContent ⟨"World", .text "draft", true, ""⟩ .rejected).2.isEditing = true ∧
    (saveContent ⟨"World", .text "draft", true, ""⟩ .rejected).2.title = "World" ∧
    (saveContent ⟨"World", .text "draft", true, ""⟩ .rejected).2.paragraph = .text "draft" ∧
    (saveContent ⟨"World", .text "draft", true, ""⟩ .rejected).2.error =
      "Error saving content. Please try again later." ∧
    (saveContent ⟨"World", .text "draft", true, ""⟩ .rejected).2.error ≠ "" :=
  saveContent_rejected ⟨"World", .text "draft", true, ""⟩ rfl

/-- C7: a resolved fetch whose `content` is a non-empty string `c` and whose
`paragraphs` is a list `ps` sets the title to `c` and the paragraph to the
elements of `ps` joined with one newline, in order. -/
theorem fetchData_wellFormed (s : HeroState) (c : String) (ps : List String) (hc : c ≠ "") :
    (fetchData s (.resolved (some ⟨some c, some (.list ps)⟩))).title = c ∧
    (fetchData s (.resolved (some ⟨some c, some (.list ps)⟩))).paragraph =
      .text (jsJoin "\n" ps) := by
  refine ⟨?_, rfl⟩
  simp [fetchData, jsOrString, hc]

theorem fetchData_wellFormed_witness :
    (fetchData HeroState.initial
      (.resolved (some ⟨some "Hello", some (.list ["Line1", "Line2"])⟩))).title = "Hello" ∧
    (fetchData HeroState.initial
      (.resolved (some ⟨some "Hello", some (.list ["Line1", "Line2"])⟩))).paragraph =
      .text "Line1\nLine2" :=
  fetchData_wellFormed HeroState.initial "Hello" ["Line1", "Line2"] (by decide)

/-- C8, as stated, fails: for the well-formed record with content "Hello" and
an empty `paragraphs` list, the paragraph displayed after the initial fetch is
the empty string. -/
theorem fetchData_empty_list_shows_empty :
    (fetchData HeroState.initial
      (.resolved (some ⟨some "Hello", some (.list [])⟩))).paragraph = .text "" ∧
    (fetchData HeroState.initial
      (.resolved (some ⟨some "Hello", some (.list [])⟩))).title = "Hello" := by
  decide

/-- C8, amended: whatever the initial GET brings, the title displayed after
`fetchData` is a non-empty string and the paragraph is a string; a missing or
empty `content` is replaced by "Your Hero Title Here", a non-list `paragraphs`
by "Your description paragraph here.", and with no record the initial texts
stay. The paragraph is non-empty except when `paragraphs` is the empty list or
the list holding one empty string, whose join is the empty string. -/
theorem fetchData_initial_display (o : GetOutcome) :
    (fetchData HeroState.initial o).title ≠ "" ∧
    (∃ p : String, (fetchData HeroState.initial o).paragraph = .text p ∧
      (p = "" ↔ ∃ c ps, o = .resolved (some ⟨c, some (.list ps)⟩) ∧ (ps = [] ∨ ps = [""]))) ∧
    (∀ d : TextRecord, o = .resolved (some d) →
      ((d.content = none ∨ d.content = some "") →
        (fetchData HeroState.initial o).title = "Your Hero Title Here") ∧
      ((∀ ps, d.paragraphs ≠ some (.list ps)) →
        (fetchData HeroState.initial o).paragraph = .text "Your description paragraph here.")) ∧
    (o = .resolved none → fetchData HeroState.initial o = HeroState.initial) := by
  have hph : "Your description paragraph here." ≠ "" := by decide
  have hpt : "Your Hero Title Here" ≠ "" := by decide
  have hi : "xxxxxxxxxxxxxxxxxxxxxxxxxxxxxxxx" ≠ "" := by decide
  match o with
  | .rejected =>
      refine ⟨by decide, ⟨"xxxxxxxxxxxxxxxxxxxxxxxxxxxxxxxx", rfl, ?_⟩, ?_, ?_⟩
      · constructor
        · intro h; exact absurd h hi
        · rintro ⟨c, ps, h, _⟩; cases h
      · intro d h; cases h
      · intro h; cases h
  | .resolved none =>
      refine ⟨by decide, ⟨"xxxxxxxxxxxxxxxxxxxxxxxxxxxxxxxx", rfl, ?_⟩, ?_, ?_⟩
      · constructor
        · intro h; exact absurd h hi
        · rintro ⟨c, ps, h, _⟩; cases h
      · intro d h; cases h
      · intro _; rfl
  | .resolved (some ⟨c, q⟩) =>
      refine ⟨?_, ⟨fetchedParagraph q, rfl, ?_⟩, ?_, ?_⟩
      · show jsOrString c "Your Hero Title Here" ≠ ""
        cases c with
        | none => exact hpt
        | some t =>
            by_cases ht : t = ""
            · simp [jsOrString, ht]
            · simp [jsOrString, ht]
      · match q with
        | none =>
            constructor
            · intro h; exact absurd h hph
            · rintro ⟨c1, ps, h, _⟩; cases h
        | some (.text t) =>
            constructor
            · intro h; exact absurd h hph
            · rintro ⟨c1, ps, h, _⟩; cases h
        | some (.list l) =>
            show jsJoin "\n" l = "" ↔ _
            rw [jsJoin_newline_eq_empty]
            constructor
            · intro h; exact ⟨c, l, rfl, h⟩
            · rintro ⟨c1, ps, h, hps⟩
              cases h
              exact hps
      · intro d hd
        cases hd
        constructor
        · intro hc
          show jsOrString c "Your Hero Title Here" = "Your Hero Title Here"
          rcases hc with hc | hc
          · simp only at hc; rw [hc]; rfl
          · simp only at hc; rw [hc]; rfl
        · intro hq
          show HeroState.paragraph _ = _
          simp only at hq
          match q, hq with
          | none, _ => rfl
          | some (.text t), _ => rfl
          | some (.list l), hq => exact absurd rfl (hq l)
      · intro h; cases h

/-! ## BestJob: the two image slots -/

/-- C10: with two distinct slot identifiers `titles[0]` and `titles[1]`, a
successful upload for slot 1 stores the new preview in `image1` and leaves
`image2` unchanged, a successful upload for slot 2 stores it in `image2` and
leaves `image1` unchanged, and an upload that fails leaves both unchanged. -/
theorem handleFileChange_slots_independent (createObjectURL : Blob → String)
    (titles : List String) (s : BestJobState) (f : Blob) (t0 t1 : String)
    (h0 : titles[0]? = some t0) (_h1 : titles[1]? = some t1) (hne : t0 ≠ t1) :
    (BestJob.handleFileChange createObjectURL titles s (some f) t0 .ok).image2 = s.image2 ∧
    (BestJob.handleFileChange createObjectURL titles s (some f) t0 .ok).image1
      = createObjectURL f ∧
    (BestJob.handleFileChange createObjectURL titles s (some f) t1 .ok).image1 = s.image1 ∧
    (BestJob.handleFileChange createObjectURL titles s (some f) t1 .ok).image2
      = createObjectURL f ∧
    (∀ (file : Option Blob) (imageType : String) (o : UploadOutcome), o ≠ .ok →
      (BestJob.handleFileChange createObjectURL titles s file imageType o).image1 = s.image1 ∧
      (BestJob.handleFileChange createObjectURL titles s file imageType o).image2 = s.image2) := by
  refine ⟨?_, ?_, ?_, ?_, ?_⟩
  · simp [BestJob.handleFileChange, h0]
  · simp [BestJob.handleFileChange, h0]
  · simp [BestJob.handleFileChange, h0, hne]
  · simp [BestJob.handleFileChange, h0, hne]
  · intro file imageType o ho
    cases o <;> first | exact absurd rfl ho | (cases file <;> exact ⟨rfl, rfl⟩)

theorem handleFileChange_slots_independent_witness :
    (BestJob.handleFileChange (fun b => "blob:" ++ b.mimeType) ["hero-a", "hero-b"]
      BestJobState.initial (some ⟨[137, 80], "image/png"⟩) "hero-a" .ok).image2
        = "/LandingPage/Heroimg2.jpg" ∧
    (BestJob.handleFileChange (fun b => "blob:" ++ b.mimeType) ["hero-a", "hero-b"]
      BestJobState.initial (some ⟨[137, 80], "image/png"⟩) "hero-a" .ok).image1
        = "blob:image/png" ∧
    (BestJob.handleFileChange (fun b => "blob:" ++ b.mimeType) ["hero-a", "hero-b"]
      BestJobState.initial (some ⟨[137, 80], "image/png"⟩) "hero-b" .ok).image1
        = "/LandingPage/Rectangle.png" ∧
    (BestJob.handleFileChange (fun b => "blob:" ++ b.mimeType) ["hero-a", "hero-b"]
      BestJobState.initial (some ⟨[137, 80], "image/png"⟩) "hero-b" .ok).image2
        = "blob:image/png" ∧
    (∀ (file : Option Blob) (imageType : String) (o : UploadOutcome), o ≠ .ok →
      (BestJob.handleFileChange (fun b => "blob:" ++ b.mimeType) ["hero-a", "hero-b"]
        BestJobState.initial file imageType o).image1 = "/LandingPage/Rectangle.png" ∧
      (BestJob.handleFileChange (fun b => "blob:" ++ b.mimeType) ["hero-a", "hero-b"]
        BestJobState.initial file imageType o).image2 = "/LandingPage/Heroimg2.jpg") :=
  handleFileChange_slots_independent (fun b => "blob:" ++ b.mimeType) ["hero-a", "hero-b"]
    BestJobState.initial ⟨[137, 80], "image/png"⟩ "hero-a" "hero-b" rfl rfl (by decide)

/-! ## HeroAbout: what the read-only view shows -/

/-- One event keeps the invariant, provided it is not typing while a PUT is in
flight. -/
theorem HeroPanel.step_inv (isAdmin : Bool) (p : HeroPanel) (e : HeroEvent) (hp : p.Inv)
    (hidle : (match e with
        | .changeTitle _ => p.inFlight.isEmpty
        | .changeParagraph _ => p.inFlight.isEmpty
        | _ => true) = true) : (p.step isAdmin e).Inv := by
  obtain ⟨h1, h2⟩ := hp
  cases e with
  | clickEdit =>
      show (if (!p.state.isEditing && isAdmin) = true then _ else p).Inv
      by_cases hc : (!p.state.isEditing && isAdmin) = true
      · rw [if_pos hc]
        have ha : isAdmin = true := by simp at hc; exact hc.2
        subst ha
        exact ⟨fun h => Bool.noConfusion h, fun b hb => h2 b hb⟩
      · rw [if_neg hc]
        exact ⟨h1, h2⟩
  | changeTitle v =>
      have hnil : p.inFlight = [] := List.isEmpty_iff.mp hidle
      show (if p.state.isEditing = true then _ else p).Inv
      by_cases hc : p.state.isEditing = true
      · rw [if_pos hc]
        refine ⟨fun h => ?_, fun b hb => ?_⟩
        · have h' : p.state.isEditing = false := h
          rw [hc] at h'
          exact Bool.noConfusion h'
        · have hb' : b ∈ p.inFlight := hb
          rw [hnil] at hb'
          exact absurd hb' (List.not_mem_nil b)
      · rw [if_neg hc]
        exact ⟨h1, h2⟩
  | changeParagraph v =>
      have hnil : p.inFlight = [] := List.isEmpty_iff.mp hidle
      show (if p.state.isEditing = true then _ else p).Inv
      by_cases hc : p.state.isEditing = true
      · rw [if_pos hc]
        refine ⟨fun h => ?_, fun b hb => ?_⟩
        · have h' : p.state.isEditing = false := h
          rw [hc] at h'
          exact Bool.noConfusion h'
        · have hb' : b ∈ p.inFlight := hb
          rw [hnil] at hb'
          exact absurd hb' (List.not_mem_nil b)
      · rw [if_neg hc]
        exact ⟨h1, h2⟩
  | clickSave =>
      show (if p.state.isEditing = true then _ else p).Inv
      by_cases hc : p.state.isEditing = true
      · rw [if_pos hc]
        refine ⟨fun h => h1 h, fun b hb => ?_⟩
        have hb' : b ∈ p.inFlight ++ [p.state.shown] := hb
        rcases List.mem_append.mp hb' with hb1 | hb1
        · exact h2 b hb1
        · exact Or.inl (List.mem_singleton.mp hb1).symm
      · rw [if_neg hc]
        exact ⟨h1, h2⟩
  | putSettled k o =>
      show (match p.inFlight[k]? with
        | none => p
        | some b => _).Inv
      cases hk : p.inFlight[k]? with
      | none => exact ⟨h1, h2⟩
      | some b =>
          have hmem : b ∈ p.inFlight := List.getElem?_mem hk
          cases o with
          | ack =>
              have hshown : p.state.shown = HeroState.initial.shown ∨ p.state.shown ∈ p.fetched ∨
                  p.state.shown ∈ b :: p.saved := by
                rcases h2 b hmem with h | h | h | h
                · exact Or.inr (Or.inr (by rw [h]; exact List.mem_cons_self _ _))
                · exact Or.inl h
                · exact Or.inr (Or.inl h)
                · exact Or.inr (Or.inr (List.mem_cons_of_mem _ h))
              exact ⟨fun _ => hshown, fun c _ => Or.inr hshown⟩
          | rejected =>
              exact ⟨fun h => h1 h, fun c hc => h2 c (List.mem_of_mem_eraseIdx hc)⟩
  | getSettled o =>
      show (if p.getPending = true then _ else p).Inv
      by_cases hc : p.getPending = true
      · rw [if_pos hc]
        match o with
        | .rejected => exact ⟨h1, h2⟩
        | .resolved none => exact ⟨h1, h2⟩
        | .resolved (some d) =>
            exact ⟨fun _ => Or.inr (Or.inl (List.mem_cons_self _ _)),
              fun c _ => Or.inr (Or.inr (Or.inl (List.mem_cons_self _ _)))⟩
      · rw [if_neg hc]
        exact ⟨h1, h2⟩

theorem HeroPanel.run_inv (isAdmin : Bool) (evs : List HeroEvent) :
    ∀ p : HeroPanel, p.Inv → HeroPanel.editsOnlyWhenIdle isAdmin p evs = true →
      (HeroPanel.run isAdmin p evs).Inv := by
  induction evs with
  | nil => intro p hp _; exact hp
  | cons e es ih =>
      intro p hp hq
      simp only [HeroPanel.editsOnlyWhenIdle, Bool.and_eq_true] at hq
      exact ih (p.step isAdmin e) (HeroPanel.step_inv isAdmin p e hp hq.1) hq.2

theorem HeroPanel.initial_inv : HeroPanel.initial.Inv :=
  ⟨fun _ => Or.inl rfl, fun _ hb => absurd hb (List.not_mem_nil _)⟩

/-- C9, as stated, fails: an admin opens the editor, types "Draft", clicks Save,
types "Draft2" while the PUT is in flight, and the PUT is acknowledged. The
panel is then read-only and shows "Draft2", which is neither the initial
title, nor a fetched one, nor that of the buffer whose save was acknowledged
("Draft"). -/
theorem readOnly_shows_unsaved_edit :
    (HeroPanel.run true HeroPanel.initial
      [.clickEdit, .changeTitle "Draft", .clickSave, .changeTitle "Draft2",
        .putSettled 0 .ack]).state.isEditing = false ∧
    (HeroPanel.run true HeroPanel.initial
      [.clickEdit, .changeTitle "Draft", .clickSave, .changeTitle "Draft2",
        .putSettled 0 .ack]).state.title = "Draft2" ∧
    (HeroPanel.run true HeroPanel.initial
      [.clickEdit, .changeTitle "Draft", .clickSave, .changeTitle "Draft2",
        .putSettled 0 .ack]).saved = [("Draft", .text "xxxxxxxxxxxxxxxxxxxxxxxxxxxxxxxx")] ∧
    (HeroPanel.run true HeroPanel.initial
      [.clickEdit, .changeTitle "Draft", .clickSave, .changeTitle "Draft2",
        .putSettled 0 .ack]).fetched = [] ∧
    ¬ (HeroPanel.run true HeroPanel.initial
      [.clickEdit, .changeTitle "Draft", .clickSave, .changeTitle "Draft2",
        .putSettled 0 .ack]).Committed
      (HeroPanel.run true HeroPanel.initial
        [.clickEdit, .changeTitle "Draft", .clickSave, .changeTitle "Draft2",
          .putSettled 0 .ack]).state.shown := by
  decide

/-- C9, amended: in every state of the panel reached from mount through the
rendered controls and the settling of its requests, provided no text area is
typed in while a PUT is in flight, whenever the panel is read-only the title
and paragraph shown are the initial values, values stored by the resolved
fetch, or those of a buffer whose save was acknowledged. -/
theorem readOnly_shows_committed (isAdmin : Bool) (evs : List HeroEvent)
    (hidle : HeroPanel.editsOnlyWhenIdle isAdmin HeroPanel.initial evs = true)
    (hview : (HeroPanel.run isAdmin HeroPanel.initial evs).state.isEditing = false) :
    (HeroPanel.run isAdmin HeroPanel.initial evs).Committed
      (HeroPanel.run isAdmin HeroPanel.initial evs).state.shown :=
  (HeroPanel.run_inv isAdmin evs HeroPanel.initial HeroPanel.initial_inv hidle).1 hview

theorem readOnly_shows_committed_witness :
    (HeroPanel.run true HeroPanel.initial
      [.getSettled (.resolved (some ⟨some "Hello", some (.list ["Line1", "Line2"])⟩)),
        .clickEdit, .changeTitle "World", .clickSave, .putSettled 0 .ack]).Committed
      ("World", .text "Line1\nLine2") :=
  readOnly_shows_committed true
    [.getSettled (.resolved (some ⟨some "Hello", some (.list ["Line1", "Line2"])⟩)),
      .clickEdit, .changeTitle "World", .clickSave, .putSettled 0 .ack]
    (by decide) (by decide)

/-! ## BestJob and BestJob3: the fetch guard -/

theorem BestJob.fetchImages_hasFetchedOnce (createObjectURL : Blob → String)
    (titles : List String) (s : BestJobState) (o1 o2 : DownloadOutcome) :
    (BestJob.fetchImages createObjectURL titles s o1 o2).2.hasFetchedOnce = true := by
  unfold BestJob.fetchImages
  by_cases h : s.hasFetchedOnce = true
  · rw [if_pos h]; exact h
  · rw [if_neg h]
    cases o1 <;> first | rfl | (cases o2 <;> rfl)

theorem BestJob.fetchImages_of_fetched (createObjectURL : Blob → String)
    (titles : List String) (s : BestJobState) (o1 o2 : DownloadOutcome)
    (h : s.hasFetchedOnce = true) :
    BestJob.fetchImages createObjectURL titles s o1 o2 = ([], s) := by
  unfold BestJob.fetchImages
  rw [if_pos h]

theorem bestJob_handleFileChange_hasFetchedOnce (createObjectURL : Blob → String)
    (titles : List String) (s : BestJobState) (file : Option Blob) (imageType : String)
    (o : UploadOutcome) :
    (BestJob.handleFileChange createObjectURL titles s file imageType o).hasFetchedOnce
      = s.hasFetchedOnce := by
  cases o <;> cases file <;> first | rfl | skip
  show (if titles[0]? = some imageType then _ else _ : BestJobState).hasFetchedOnce = _
  by_cases h : titles[0]? = some imageType
  · rw [if_pos h]
  · rw [if_neg h]

theorem bestJob_run_hasFetchedOnce (createObjectURL : Blob → String) (titles : List String)
    (ops : List BestJob.Op) :
    ∀ s : BestJobState, s.hasFetchedOnce = true →
      (BestJob.run createObjectURL titles s ops).hasFetchedOnce = true := by
  induction ops with
  | nil => intro s h; exact h
  | cons op rest ih =>
      intro s h
      apply ih
      cases op with
      | fetchImages o1 o2 => exact BestJob.fetchImages_hasFetchedOnce createObjectURL titles s o1 o2
      | handleFileChange file imageType o =>
          show (BestJob.handleFileChange createObjectURL titles s file imageType o).hasFetchedOnce
            = true
          rw [bestJob_handleFileChange_hasFetchedOnce]
          exact h

theorem BestJob3.fetchUploadedFile_hasFetchedOnce (createObjectURL : Blob → String)
    (s : BestJob3State) (o : DownloadOutcome) :
    (BestJob3.fetchUploadedFile createObjectURL s o).2.hasFetchedOnce = true := by
  unfold BestJob3.fetchUploadedFile
  by_cases h : s.hasFetchedOnce = true
  · rw [if_pos h]; exact h
  · rw [if_neg h]
    cases o <;> rfl

theorem BestJob3.fetchUploadedFile_of_fetched (createObjectURL : Blob → String)
    (s : BestJob3State) (o : DownloadOutcome) (h : s.hasFetchedOnce = true) :
    BestJob3.fetchUploadedFile createObjectURL s o = ([], s) := by
  unfold BestJob3.fetchUploadedFile
  rw [if_pos h]

theorem bestJob3_handleFileChange_hasFetchedOnce (createObjectURL : Blob → String)
    (s : BestJob3State) (file : Option Blob) (o : PutFileOutcome) :
    (BestJob3.handleFileChange createObjectURL s file o).hasFetchedOnce = s.hasFetchedOnce := by
  unfold BestJob3.handleFileChange
  cases o <;> cases file <;> rfl

theorem bestJob3_run_hasFetchedOnce (createObjectURL : Blob → String)
    (ops : List BestJob3.Op) :
    ∀ s : BestJob3State, s.hasFetchedOnce = true →
      (BestJob3.run createObjectURL s ops).hasFetchedOnce = true := by
  induction ops with
  | nil => intro s h; exact h
  | cons op rest ih =>
      intro s h
      apply ih
      cases op with
      | fetchUploadedFile o => exact BestJob3.fetchUploadedFile_hasFetchedOnce createObjectURL s o
      | handleFileChange file o =>
          show (BestJob3.handleFileChange createObjectURL s file o).hasFetchedOnce = true
          rw [bestJob3_handleFileChange_hasFetchedOnce]
          exact h

/-- C11: in `BestJob` and in `BestJob3`, once a call of `fetchImages` /
`fetchUploadedFile` has completed, with any outcome, `hasFetchedOnce` is true;
it is still true after any further sequence of operations (no operation sets
it back to false); and every call made while `hasFetchedOnce` is true issues
no request and leaves the whole state unchanged. -/
theorem fetch_guard_monotonic_idempotent (createObjectURL : Blob → String)
    (titles : List String) (s : BestJobState) (o1 o2 n1 n2 : DownloadOutcome)
    (ops : List BestJob.Op) (s3 : BestJob3State) (o n : DownloadOutcome)
    (ops3 : List BestJob3.Op) :
    ((BestJob.fetchImages createObjectURL titles s o1 o2).2.hasFetchedOnce = true ∧
      (BestJob.run createObjectURL titles
        (BestJob.fetchImages createObjectURL titles s o1 o2).2 ops).hasFetchedOnce = true ∧
      BestJob.fetchImages createObjectURL titles
          (BestJob.run createObjectURL titles
            (BestJob.fetchImages createObjectURL titles s o1 o2).2 ops) n1 n2
        = ([], BestJob.run createObjectURL titles
            (BestJob.fetchImages createObjectURL titles s o1 o2).2 ops) ∧
      (∀ t : BestJobState, t.hasFetchedOnce = true →
        BestJob.fetchImages createObjectURL titles t n1 n2 = ([], t)) ∧
      (∀ (t : BestJobState) (op : BestJob.Op), t.hasFetchedOnce = true →
        (BestJob.apply createObjectURL titles t op).hasFetchedOnce = true)) ∧
    ((BestJob3.fetchUploadedFile createObjectURL s3 o).2.hasFetchedOnce = true ∧
      (BestJob3.run createObjectURL
        (BestJob3.fetchUploadedFile createObjectURL s3 o).2 ops3).hasFetchedOnce = true ∧
      BestJob3.fetchUploadedFile createObjectURL
          (BestJob3.run createObjectURL
            (BestJob3.fetchUploadedFile createObjectURL s3 o).2 ops3) n
        = ([], BestJob3.run createObjectURL
            (BestJob3.fetchUploadedFile createObjectURL s3 o).2 ops3) ∧
      (∀ t : BestJob3State, t.hasFetchedOnce = true →
        BestJob3.fetchUploadedFile createObjectURL t n = ([], t)) ∧
      (∀ (t : BestJob3State) (op : BestJob3.Op), t.hasFetchedOnce = true →
        (BestJob3.apply createObjectURL t op).hasFetchedOnce = true)) := by
  have h1 := BestJob.fetchImages_hasFetchedOnce createObjectURL titles s o1 o2
  have h2 := bestJob_run_hasFetchedOnce createObjectURL titles ops _ h1
  have h3 := BestJob3.fetchUploadedFile_hasFetchedOnce createObjectURL s3 o
  have h4 := bestJob3_run_hasFetchedOnce createObjectURL ops3 _ h3
  refine ⟨⟨h1, h2, BestJob.fetchImages_of_fetched createObjectURL titles _ n1 n2 h2,
      fun t ht => BestJob.fetchImages_of_fetched createObjectURL titles t n1 n2 ht,
      fun t op ht => bestJob_run_hasFetchedOnce createObjectURL titles [op] t ht⟩,
    ⟨h3, h4, BestJob3.fetchUploadedFile_of_fetched createObjectURL _ n h4,
      fun t ht => BestJob3.fetchUploadedFile_of_fetched createObjectURL t n ht,
      fun t op ht => bestJob3_run_hasFetchedOnce createObjectURL [op] t ht⟩⟩

/-! ## useFileOperations and BestJob2: failures -/

/-- C12, as stated, fails: after a failed `fetchUploadedFile` and after a failed
`handleFileChange` of the hook (and of `BestJob2`) the state is the one before,
with `uploadedFile` still `null`; the object the hook returns holds no string
under any property, so no error message; the failure only reaches the
console. -/
theorem fileOps_failure_surfaces_no_error :
    useFileOperations.fetchUploadedFile (fun b => "blob:" ++ b.mimeType)
        FileOpsState.initial .notOk
      = .ok (FileOpsState.initial, ["Error fetching uploaded file:"]) ∧
    useFileOperations.handleFileChange (fun b => "blob:" ++ b.mimeType)
        FileOpsState.initial (some ⟨[137, 80], "image/png"⟩) .notOk
      = .ok (FileOpsState.initial, ["Error updating image:"]) ∧
    BestJob2.fetchUploadedFile (fun b => "blob:" ++ b.mimeType) FileOpsState.initial .notOk
      = .ok (FileOpsState.initial, ["Error fetching uploaded file:"]) ∧
    BestJob2.handleFileChange (fun b => "blob:" ++ b.mimeType)
        FileOpsState.initial (some ⟨[137, 80], "image/png"⟩) .notOk
      = .ok (FileOpsState.initial, ["Error updating image:"]) ∧
    FileOpsState.initial.stringProp "error" = none ∧
    (∀ name : String, FileOpsState.initial.stringProp name = none) := by
  refine ⟨rfl, rfl, rfl, rfl, rfl, ?_⟩
  intro name
  unfold FileOpsState.stringProp
  split <;> rfl

/-- C12, amended: in the hook `useFileOperations` and in `BestJob2`, every
failed `fetchUploadedFile` and every failed `handleFileChange` (rejected
request, response not ok, unreadable body, or no file to preview) is caught
and written to the console with `console.error`; no exception leaves the
handler; the state is left as it was, and it has no error message: the only
property that can hold a string is `uploadedFile`. -/
theorem fileOps_failure_logged_only (createObjectURL : Blob → String) (s : FileOpsState)
    (file : Option Blob) (data : UploadResponse) (o : DownloadOutcome) (po : PutFileOutcome) :
    (useFileOperations.fetchUploadedFile createObjectURL s .rejected
        = .ok (s, ["Error fetching uploaded file:"]) ∧
      useFileOperations.fetchUploadedFile createObjectURL s .notOk
        = .ok (s, ["Error fetching uploaded file:"]) ∧
      useFileOperations.fetchUploadedFile createObjectURL s .noBlob
        = .ok (s, ["Error fetching uploaded file:"]) ∧
      useFileOperations.handleFileChange createObjectURL s file .rejected
        = .ok (s, ["Error updating image:"]) ∧
      useFileOperations.handleFileChange createObjectURL s file .notOk
        = .ok (s, ["Error updating image:"]) ∧
      useFileOperations.handleFileChange createObjectURL s file .badJson
        = .ok (s, ["Error updating image:"]) ∧
      useFileOperations.handleFileChange createObjectURL s none (.ok data)
        = .ok (s, ["Image updated successfully:", "Error updating image:"]) ∧
      (∃ r, useFileOperations.fetchUploadedFile createObjectURL s o = .ok r) ∧
      (∃ r, useFileOperations.handleFileChange createObjectURL s file po = .ok r)) ∧
    (BestJob2.fetchUploadedFile createObjectURL s .rejected
        = .ok (s, ["Error fetching uploaded file:"]) ∧
      BestJob2.fetchUploadedFile createObjectURL s .notOk
        = .ok (s, ["Error fetching uploaded file:"]) ∧
      BestJob2.fetchUploadedFile createObjectURL s .noBlob
        = .ok (s, ["Error fetching uploaded file:"]) ∧
      BestJob2.handleFileChange createObjectURL s file .rejected
        = .ok (s, ["Error updating image:"]) ∧
      BestJob2.handleFileChange createObjectURL s file .notOk
        = .ok (s, ["Error updating image:"]) ∧
      BestJob2.handleFileChange createObjectURL s file .badJson
        = .ok (s, ["Error updating image:"]) ∧
      BestJob2.handleFileChange createObjectURL s none (.ok data)
        = .ok (s, ["Image updated successfully:", "Error updating image:"]) ∧
      (∃ r, BestJob2.fetchUploadedFile createObjectURL s o = .ok r) ∧
      (∃ r, BestJob2.handleFileChange createObjectURL s file po = .ok r)) ∧
    s.stringProp "error" = none ∧
    (∀ name : String, (∃ msg, s.stringProp name = some msg) → name = "uploadedFile") := by
  refine ⟨⟨rfl, rfl, rfl, rfl, rfl, rfl, rfl, ?_, ?_⟩, ⟨rfl, rfl, rfl, rfl, rfl, rfl, rfl, ?_, ?_⟩,
    rfl, ?_⟩
  · cases o <;> exact ⟨_, rfl⟩
  · cases po <;> first | exact ⟨_, rfl⟩ | (cases file <;> exact ⟨_, rfl⟩)
  · cases o <;> exact ⟨_, rfl⟩
  · cases po <;> first | exact ⟨_, rfl⟩ | (cases file <;> exact ⟨_, rfl⟩)
  · rintro name ⟨msg, h⟩
    unfold FileOpsState.stringProp at h
    by_cases hn : name = "uploadedFile"
    · exact hn
    · rw [if_neg hn] at h
      cases h

/-! ## BestJob3: uploading -/

/-- C13: for every `BestJob3` state and every selected file `f`,
`handleFileChange` ends in one of two ways. If the response is ok and its JSON
body parses, `uploadedFile` is the preview handle made from the local file `f`,
whatever the body holds, and `error` is null. Otherwise `uploadedFile` is
unchanged and `error` is the non-empty string "Error updating image". In both
cases `hasFetchedOnce` is unchanged. -/
theorem BestJob3_handleFileChange_outcomes (createObjectURL : Blob → String)
    (s : BestJob3State) (f : Blob) (o : PutFileOutcome) :
    ((∃ data, o = .ok data) ∧
        (BestJob3.handleFileChange createObjectURL s (some f) o).uploadedFile
          = some (createObjectURL f) ∧
        (BestJob3.handleFileChange createObjectURL s (some f) o).error = none
      ∨
      (∀ data, o ≠ .ok data) ∧
        (BestJob3.handleFileChange createObjectURL s (some f) o).uploadedFile = s.uploadedFile ∧
        (BestJob3.handleFileChange createObjectURL s (some f) o).error
          = some "Error updating image") ∧
    "Error updating image" ≠ "" ∧
    (BestJob3.handleFileChange createObjectURL s (some f) o).hasFetchedOnce = s.hasFetchedOnce ∧
    (∀ data data2 : UploadResponse,
      BestJob3.handleFileChange createObjectURL s (some f) (.ok data)
        = BestJob3.handleFileChange createObjectURL s (some f) (.ok data2)) := by
  refine ⟨?_, by decide, bestJob3_handleFileChange_hasFetchedOnce createObjectURL s (some f) o,
    fun _ _ => rfl⟩
  cases o with
  | ok data => exact Or.inl ⟨⟨data, rfl⟩, rfl, rfl⟩
  | rejected => exact Or.inr ⟨fun _ h => PutFileOutcome.noConfusion h, rfl, rfl⟩
  | notOk => exact Or.inr ⟨fun _ h => PutFileOutcome.noConfusion h, rfl, rfl⟩
  | badJson => exact Or.inr ⟨fun _ h => PutFileOutcome.noConfusion h, rfl, rfl⟩

/-! ## BestJob: two slots, one title -/

/-- C14, as stated, fails: in `BestJob` as written, when the first download
succeeds and the second does not, `fetchImages` completes with `image1`
replaced by the preview of the fetched asset while `image2` keeps its default
image. -/
theorem fetchImages_second_download_fails :
    BestJobState.initial.hasFetchedOnce = false ∧
    (BestJob.fetchImages (fun b => "blob:" ++ b.mimeType) BestJob.titles BestJobState.initial
      (.ok ⟨[137, 80], "image/png"⟩) .notOk).2.image1 = "blob:image/png" ∧
    (BestJob.fetchImages (fun b => "blob:" ++ b.mimeType) BestJob.titles BestJobState.initial
      (.ok ⟨[137, 80], "image/png"⟩) .notOk).2.image2 = "/LandingPage/Heroimg2.jpg" ∧
    (BestJob.fetchImages (fun b => "blob:" ++ b.mimeType) BestJob.titles BestJobState.initial
      (.ok ⟨[137, 80], "image/png"⟩) .notOk).2.image2 = BestJobState.initial.image2 ∧
    (BestJob.fetchImages (fun b => "blob:" ++ b.mimeType) BestJob.titles BestJobState.initial
      (.ok ⟨[137, 80], "image/png"⟩) .notOk).2.error = some "Failed to load images" := by
  decide

/-- C14, amended: in `BestJob`, where both slots share the identifier
"starteryou-v2", for a call of `fetchImages` with `hasFetchedOnce` false:
when both downloads succeed, two requests are made, both for "starteryou-v2",
`image1` and `image2` are replaced by the preview handles of the two blobs
fetched and `error` is null; when the first download succeeds and the second
fails, the same two requests are made, `image1` is replaced, `image2` keeps
its image and `error` is "Failed to load images"; when the first download
fails, one request only is made, for "starteryou-v2", neither image is
replaced and `error` is "Failed to load images". In all three cases
`hasFetchedOnce` ends true. -/
theorem fetchImages_shared_title (createObjectURL : Blob → String) (s : BestJobState)
    (b1 b2 : Blob) (o o2 : DownloadOutcome) (h : s.hasFetchedOnce = false) :
    BestJob.fetchImages createObjectURL BestJob.titles s (.ok b1) (.ok b2)
      = ([some "starteryou-v2", some "starteryou-v2"],
          { image1 := createObjectURL b1, image2 := createObjectURL b2, error := none,
            hasFetchedOnce := true }) ∧
    ((∀ b, o ≠ .ok b) →
      BestJob.fetchImages createObjectURL BestJob.titles s (.ok b1) o
        = ([some "starteryou-v2", some "starteryou-v2"],
            { image1 := createObjectURL b1, image2 := s.image2,
              error := some "Failed to load images", hasFetchedOnce := true })) ∧
    ((∀ b, o ≠ .ok b) →
      BestJob.fetchImages createObjectURL BestJob.titles s o o2
        = ([some "starteryou-v2"],
            { image1 := s.image1, image2 := s.image2,
              error := some "Failed to load images", hasFetchedOnce := true })) := by
  have hn : ¬ s.hasFetchedOnce = true := by rw [h]; decide
  refine ⟨?_, ?_, ?_⟩
  · unfold BestJob.fetchImages
    rw [if_neg hn]
    rfl
  · intro ho
    unfold BestJob.fetchImages
    rw [if_neg hn]
    cases o with
    | ok b => exact absurd rfl (ho b)
    | rejected => rfl
    | notOk => rfl
    | noBlob => rfl
  · intro ho
    unfold BestJob.fetchImages
    rw [if_neg hn]
    cases o with
    | ok b => exact absurd rfl (ho b)
    | rejected => rfl
    | notOk => rfl
    | noBlob => rfl

theorem fetchImages_shared_title_witness :
    BestJob.fetchImages (fun b => "blob:" ++ b.mimeType) BestJob.titles BestJobState.initial
        (.ok ⟨[137, 80], "image/png"⟩) (.ok ⟨[255, 216], "image/jpeg"⟩)
      = ([some "starteryou-v2", some "starteryou-v2"],
          { image1 := "blob:image/png", image2 := "blob:image/jpeg", error := none,
            hasFetchedOnce := true }) :=
  (fetchImages_shared_title (fun b => "blob:" ++ b.mimeType) BestJobState.initial
    ⟨[137, 80], "image/png"⟩ ⟨[255, 216], "image/jpeg"⟩ .notOk .notOk rfl).1

theorem BestJob.onFileChange_image2 (createObjectURL : Blob → String) (s : BestJobState)
    (slot : BestJob.Slot) (file : Option Blob) (o : UploadOutcome) :
    (BestJob.onFileChange createObjectURL s slot file o).image2 = s.image2 := by
  cases slot <;> cases o <;> cases file <;> rfl

/-- C15: in `BestJob` as written, both rendered controls pass "starteryou-v2",
which is `titles[0]`. So a successful upload from either control, the second
one included, replaces `image1` and leaves `image2` unchanged, and no change of
a rendered file input, nor any sequence of them, ever changes `image2`. -/
theorem onFileChange_always_first_slot (createObjectURL : Blob → String) (s : BestJobState)
    (slot : BestJob.Slot) (f : Blob) (file : Option Blob) (o : UploadOutcome)
    (calls : List (BestJob.Slot × Option Blob × UploadOutcome)) :
    BestJob.titles = ["starteryou-v2", "starteryou-v2"] ∧
    slot.imageType = "starteryou-v2" ∧
    BestJob.titles[0]? = some slot.imageType ∧
    (BestJob.onFileChange createObjectURL s slot (some f) .ok).image1 = createObjectURL f ∧
    (BestJob.onFileChange createObjectURL s slot (some f) .ok).image2 = s.image2 ∧
    (BestJob.onFileChange createObjectURL s .second (some f) .ok).image1 = createObjectURL f ∧
    (BestJob.onFileChange createObjectURL s .second (some f) .ok).image2 = s.image2 ∧
    (BestJob.onFileChange createObjectURL s slot file o).image2 = s.image2 ∧
    (BestJob.onFileChanges createObjectURL s calls).image2 = s.image2 := by
  refine ⟨rfl, by cases slot <;> rfl, by cases slot <;> rfl, by cases slot <;> rfl,
    by cases slot <;> rfl, rfl, rfl, BestJob.onFileChange_image2 createObjectURL s slot file o, ?_⟩
  induction calls generalizing s with
  | nil => rfl
  | cons c rest ih =>
      obtain ⟨sl, fl, oc⟩ := c
      show (BestJob.onFileChanges createObjectURL
        (BestJob.onFileChange createObjectURL s sl fl oc) rest).image2 = s.image2
      rw [ih, BestJob.onFileChange_image2]

end Starteryou
